import Mathlib

/-!
# Verification of the ebook-pro AI generation orchestrator

Shallow embedding of the AI generation logic of the ebook-pro repository:

* `AIGenerationModal` (client component): the `handleGenerate` fetch loop,
  `handleCancel` and `handleClose` (state hooks `description`, `isGenerating`,
  `stage`, `progress`, `currentStep`, `outline`).
* the `generate-outline` API route (`POST`), which deletes all pages of the
  ebook and then calls the LLM for an outline;
* the `generate-content` API route (`POST`), which calls the LLM for section
  content and creates one page.

Network and LLM behaviour is abstracted into an environment record: each
fetch either succeeds (with the payload the server would return), fails with
a non-2xx status, or is aborted by the cancellation signal.  Progress values
are rationals (`ℚ`), computing the source's `30 + ((i + 1) / totalSections) * 65`
exactly.

State snapshots: React 18 batches all state-setter calls made in one
synchronous continuation into a single committed update, so the observable
states of a run are the component states at each `await` suspension point and
at the end of the handler.  `handleGenerate` returns the list of those
committed states in order, together with the list of section-content requests
issued and the final state.
-/

namespace EbookPro

/-- The `GenerationStage` union type of `AIGenerationModal`:
`"idle" | "outline" | "expanding" | "complete"`. -/
inductive GenerationStage where
  | idle
  | outline
  | expanding
  | complete
deriving DecidableEq, Repr

/-- The `useState` hooks of `AIGenerationModal` that the orchestrator reads and
writes: `description`, `isGenerating`, `stage`, `progress`, `currentStep`,
`outline`.  (`abortController` is modelled by the environment's abort point.) -/
structure ModalState where
  description : String
  isGenerating : Bool
  stage : GenerationStage
  progress : ℚ
  currentStep : String
  outline : List String
deriving DecidableEq, Repr

/-- The initial hook values: `useState("")`, `useState(false)`,
`useState("idle")`, `useState(0)`, `useState("")`, `useState([])`. -/
def initialModalState : ModalState :=
  { description := ""
    isGenerating := false
    stage := GenerationStage.idle
    progress := 0
    currentStep := ""
    outline := [] }

/-- Outcome of the `/api/generate-outline` fetch as seen by the client:
a 2xx response carrying `{outline: string[]}`, a non-2xx response, or an
abort of the in-flight request via the cancellation signal. -/
inductive OutlineOutcome where
  | ok (titles : List String)
  | httpError
  | aborted
deriving DecidableEq, Repr

/-- Outcome of one `/api/generate-content` fetch as seen by the client. -/
inductive ContentOutcome where
  | ok
  | httpError
  | aborted
deriving DecidableEq, Repr

/-- Environment of one generation run: what the two endpoints answer, and the
loop iteration (if any) at whose top-of-loop guard `controller.signal.aborted`
is first observed `true`. -/
structure GenEnv where
  outlineResult : OutlineOutcome
  contentResult : Nat → ContentOutcome
  abortAt : Option Nat

/-- `controller.signal.aborted` as read by the guard at the top of loop
iteration `i`: once the signal is aborted it stays aborted. -/
def guardAborted (env : GenEnv) (i : Nat) : Bool :=
  match env.abortAt with
  | some k => decide (k ≤ i)
  | none => false

/-- The request body of one `/api/generate-content` call:
`{ebookId, sectionTitle, sectionIndex, totalSections, description}`. -/
structure ContentRequest where
  ebookId : String
  sectionTitle : String
  sectionIndex : Nat
  totalSections : Nat
  description : String
deriving DecidableEq, Repr

/-- Result of one invocation of `handleGenerate`: whether the outline fetch
was issued, the section-content requests issued in order, the committed
(observable) states in order, and the final state. -/
structure RunResult where
  outlineCalled : Bool
  contentCalls : List ContentRequest
  states : List ModalState
  final : ModalState
deriving DecidableEq, Repr

/-- JavaScript `String.prototype.trim`: the string with leading and trailing
whitespace removed, computed on the character list.  (JS trims a slightly
larger Unicode whitespace class than `Char.isWhitespace`; every string the
claims touch is ASCII.) -/
def jsTrim (s : String) : String :=
  String.mk (((s.data.dropWhile Char.isWhitespace).reverse.dropWhile Char.isWhitespace).reverse)

/-- The `catch` branch of `handleGenerate` for a cancellation
(`AbortError` or the `"Generation cancelled"` error): sets the cancelled
label, `isGenerating := false` and `stage := "idle"`; `progress` and
`outline` are not touched. -/
def cancelCatch (s : ModalState) : ModalState :=
  { s with
    currentStep := "Generation cancelled"
    isGenerating := false
    stage := GenerationStage.idle }

/-- The `catch` branch of `handleGenerate` for any other error: sets the
generic error label, `isGenerating := false` and `stage := "idle"`;
`progress` and `outline` are not touched. -/
def errorCatch (s : ModalState) : ModalState :=
  { s with
    currentStep := "Error generating ebook. Please try again."
    isGenerating := false
    stage := GenerationStage.idle }

/-- The `currentStep` label set before issuing the content fetch for section
`i` (0-based): `Writing section ${i+1} of ${totalSections}: ${title}`. -/
def sectionStepLabel (i total : Nat) (title : String) : String :=
  "Writing section " ++ toString (i + 1) ++ " of " ++ toString total ++ ": " ++ title

/-- The body of `for (let i = 0; i < totalSections; i++) { ... }` in
`handleGenerate`, iterating over the remaining outline entries (`rest`),
with `i` the index of the first entry of `rest` and `total` the length of
the full outline.  Each recursive step models one loop iteration:

* top-of-loop guard: if `controller.signal.aborted`, throw
  `"Generation cancelled"` — caught as a cancellation;
* `setCurrentStep(...)` then `await fetch("/api/generate-content", ...)`;
  the state with the new label is the snapshot committed at this `await`;
* non-ok response: throw — caught as a generic error; aborted in-flight
  request: `AbortError` — caught as a cancellation;
* success: `setProgress(30 + ((i + 1) / totalSections) * 65)` and continue.

When the loop exhausts the outline, the trailing synchronous code runs:
`setProgress(100); setStage("complete"); setCurrentStep(...)` — one committed
snapshot (any `setProgress` pending from the last iteration is batched into
it).  Returns (requests issued, committed snapshots, final state). -/
def expandLoop (env : GenEnv) (ebookId descr : String) (total : Nat) :
    List String → Nat → ModalState → List ContentRequest × List ModalState × ModalState
  | [], _, s =>
    let sd := { s with
      progress := 100
      stage := GenerationStage.complete
      currentStep := "Ebook generated successfully!" }
    ([], [sd], sd)
  | title :: rest, i, s =>
    if guardAborted env i then
      let sc := cancelCatch s
      ([], [sc], sc)
    else
      let s1 := { s with currentStep := sectionStepLabel i total title }
      let req : ContentRequest :=
        { ebookId := ebookId
          sectionTitle := title
          sectionIndex := i
          totalSections := total
          description := descr }
      match env.contentResult i with
      | ContentOutcome.aborted =>
        let sc := cancelCatch s1
        ([req], [s1, sc], sc)
      | ContentOutcome.httpError =>
        let se := errorCatch s1
        ([req], [s1, se], se)
      | ContentOutcome.ok =>
        let s2 := { s1 with progress := 30 + ((i : ℚ) + 1) / (total : ℚ) * 65 }
        let r := expandLoop env ebookId descr total rest (i + 1) s2
        (req :: r.1, s1 :: r.2.1, r.2.2)

/-- `AIGenerationModal.handleGenerate`, as a function of the current state
and the run environment.

* `if (!description.trim()) return;` — no fetch, no state change;
* otherwise set `isGenerating := true`, `stage := "outline"`,
  `progress := 10`, the outline label, and `await fetch("/api/generate-outline")`
  (first committed snapshot);
* non-ok outline response: throw — generic error catch; aborted: cancellation
  catch;
* on success, set `outline`, `progress := 30`, `stage := "expanding"` and run
  the section loop.  (The `"Outline created!"` label is overwritten by the
  first iteration's label inside the same batch.) -/
def handleGenerate (ebookId : String) (env : GenEnv) (s : ModalState) : RunResult :=
  if jsTrim s.description = "" then
    { outlineCalled := false, contentCalls := [], states := [], final := s }
  else
    let s1 := { s with
      isGenerating := true
      stage := GenerationStage.outline
      progress := 10
      currentStep := "Creating outline..." }
    match env.outlineResult with
    | OutlineOutcome.httpError =>
      let se := errorCatch s1
      { outlineCalled := true, contentCalls := [], states := [s1, se], final := se }
    | OutlineOutcome.aborted =>
      let sc := cancelCatch s1
      { outlineCalled := true, contentCalls := [], states := [s1, sc], final := sc }
    | OutlineOutcome.ok titles =>
      let s2 := { s1 with
        outline := titles
        progress := 30
        currentStep := "Outline created! Generating content..."
        stage := GenerationStage.expanding }
      let r := expandLoop env ebookId s.description titles.length titles 0 s2
      { outlineCalled := true, contentCalls := r.1, states := s1 :: r.2.1, final := r.2.2 }

/-- `AIGenerationModal.handleCancel`: aborts the controller (modelled by the
environment) and sets `isGenerating := false`, `stage := "idle"`,
`progress := 0`, `currentStep := ""`.  It does not touch `outline`. -/
def handleCancel (s : ModalState) : ModalState :=
  { s with
    isGenerating := false
    stage := GenerationStage.idle
    progress := 0
    currentStep := "" }

/-- `AIGenerationModal.handleClose`: runs `handleCancel` if a run is in
progress, then resets `description`, `progress`, `stage`, `currentStep` and
`outline`. -/
def handleClose (s : ModalState) : ModalState :=
  let s1 := if s.isGenerating then handleCancel s else s
  { s1 with
    description := ""
    progress := 0
    stage := GenerationStage.idle
    currentStep := ""
    outline := [] }

/-! ## The `generate-outline` API route

`POST` of `src/app/api/generate-outline/route.ts`: validates the body, deletes
all existing pages of the ebook (`deleteAllPages` of `src/app/actions.ts`,
a `prisma.page.deleteMany` on `ebookId`), then calls the LLM for an outline.
The LLM call and the JSON extraction of its reply
(`parsed.outline || parsed.chapters || parsed.sections || Object.values(parsed)[0]`
followed by an `Array.isArray` check) are abstracted into the route
environment: `llmOutline = some xs` when the call succeeds and the extraction
yields the array `xs`, `none` when the call throws, returns no content, or the
extracted value is not an array.  Any thrown error is caught and answered with
status 500. -/

/-- A server-side effect of the outline route, in execution order. -/
inductive RouteEffect where
  | deletePages (ebookId : String)
  | llmCall
deriving DecidableEq, Repr

/-- Environment of one outline-route invocation. -/
structure OutlineRouteEnv where
  apiKeyConfigured : Bool
  deleteSucceeds : Bool
  llmOutline : Option (List String)

/-- Response and effect trace of one outline-route invocation. -/
structure OutlineRouteResult where
  status : Nat
  outline : Option (List String)
  effects : List RouteEffect
deriving DecidableEq, Repr

/-- The `POST` handler of the `generate-outline` route.  `!description` and
`!ebookId` are the JS falsiness checks on the parsed body (empty string for a
missing field). -/
def generateOutlinePOST (description ebookId : String) (env : OutlineRouteEnv) :
    OutlineRouteResult :=
  if description = "" ∨ ebookId = "" then
    { status := 400, outline := none, effects := [] }
  else if env.apiKeyConfigured = false then
    { status := 500, outline := none, effects := [] }
  else if env.deleteSucceeds = false then
    { status := 500, outline := none, effects := [RouteEffect.deletePages ebookId] }
  else
    match env.llmOutline with
    | none =>
      { status := 500, outline := none
        effects := [RouteEffect.deletePages ebookId, RouteEffect.llmCall] }
    | some xs =>
      { status := 200, outline := some xs
        effects := [RouteEffect.deletePages ebookId, RouteEffect.llmCall] }

/-! ## The `generate-content` API route

`POST` of `src/app/api/generate-content/route.ts`: validates the body, calls
the LLM for the section content, chooses a template from `sectionIndex`, and
creates one page via `prisma.page.create` with
`{ebookId, title: sectionTitle, content, template, order: sectionIndex}`.
The LLM call is abstracted as `llmContent` (`none` when it throws or returns
no content); `createSucceeds = false` models a throwing `prisma.page.create`.
Any thrown error is caught and answered with status 500. -/

/-- The `Page` row created by the content route. -/
structure Page where
  ebookId : String
  title : String
  content : String
  template : String
  order : Nat
deriving DecidableEq, Repr

/-- Environment of one content-route invocation. -/
structure ContentRouteEnv where
  apiKeyConfigured : Bool
  llmContent : Option String
  createSucceeds : Bool

/-- Response of one content-route invocation: the status and the page created
(if any). -/
structure ContentRouteResult where
  status : Nat
  page : Option Page
deriving DecidableEq, Repr

/-- The `POST` handler of the `generate-content` route. -/
def generateContentPOST (req : ContentRequest) (env : ContentRouteEnv) :
    ContentRouteResult :=
  if req.ebookId = "" ∨ req.sectionTitle = "" then
    { status := 400, page := none }
  else if env.apiKeyConfigured = false then
    { status := 500, page := none }
  else
    match env.llmContent with
    | none => { status := 500, page := none }
    | some content =>
      let template :=
        if req.sectionIndex = 0 then "cover-page"
        else if req.sectionIndex % 4 = 0 then "image-top"
        else "text-only"
      if env.createSucceeds = false then
        { status := 500, page := none }
      else
        { status := 200
          page := some
            { ebookId := req.ebookId
              title := req.sectionTitle
              content := content
              template := template
              order := req.sectionIndex } }

/-! ## Helper lemmas -/

/-- The per-section progress value `30 + (i / total) * 65` stays at or below 95
while `i ≤ total`. -/
lemma progress_formula_le (i total : Nat) (h : i ≤ total) :
    30 + (i : ℚ) / (total : ℚ) * 65 ≤ 95 := by
  rcases Nat.eq_zero_or_pos total with h0 | h0
  · have hi : i = 0 := by omega
    subst h0; subst hi; norm_num
  · have ht : (0 : ℚ) < (total : ℚ) := by exact_mod_cast h0
    have hle : (i : ℚ) / (total : ℚ) ≤ 1 := by
      rw [div_le_one ht]; exact_mod_cast h
    nlinarith

/-- The per-section progress value is non-decreasing in the section index. -/
lemma progress_formula_mono (i total : Nat) :
    30 + (i : ℚ) / (total : ℚ) * 65 ≤ 30 + ((i : ℚ) + 1) / (total : ℚ) * 65 := by
  rcases Nat.eq_zero_or_pos total with h0 | h0
  · subst h0; simp
  · have ht : (0 : ℚ) < (total : ℚ) := by exact_mod_cast h0
    have hle : (i : ℚ) / (total : ℚ) ≤ ((i : ℚ) + 1) / (total : ℚ) := by
      gcongr; linarith
    nlinarith

/-- On a run where the signal is never aborted and every content fetch
succeeds, the loop issues one request per remaining outline entry, with
consecutive indices starting at `i`, all carrying `total`, titled by the
entries in order, and finishes in the `complete` state at progress 100. -/
lemma expandLoop_ok_calls (env : GenEnv) (ebookId descr : String) (total : Nat)
    (hab : env.abortAt = none) (hok : ∀ j, env.contentResult j = ContentOutcome.ok) :
    ∀ (ts : List String) (i : Nat) (s : ModalState),
      (expandLoop env ebookId descr total ts i s).1.map (fun c => c.sectionIndex) =
        List.range' i ts.length ∧
      (expandLoop env ebookId descr total ts i s).1.map (fun c => c.totalSections) =
        List.replicate ts.length total ∧
      (expandLoop env ebookId descr total ts i s).1.map (fun c => c.sectionTitle) = ts ∧
      (expandLoop env ebookId descr total ts i s).2.2.stage = GenerationStage.complete ∧
      (expandLoop env ebookId descr total ts i s).2.2.progress = 100 := by
  intro ts
  induction ts with
  | nil => intro i s; simp [expandLoop]
  | cons t rest ih =>
    intro i s
    have hg : guardAborted env i = false := by simp [guardAborted, hab]
    obtain ⟨h1, h2, h3, h4, h5⟩ :=
      ih (i + 1)
        { s with
          currentStep := sectionStepLabel i total t
          progress := 30 + ((i : ℚ) + 1) / (total : ℚ) * 65 }
    simp only [expandLoop, hg, Bool.false_eq_true, if_false, hok i]
    refine ⟨?_, ?_, ?_, h4, h5⟩
    · simpa [List.range'_succ] using h1
    · simpa [List.replicate_succ] using h2
    · simpa using h3

/-! ## Claims -/

/-- **C1** — For every description that is non-empty after trimming, a
successful run (outline fetch returns `ts`, no abort, every content fetch
succeeds) issues exactly `ts.length` section-content requests, in outline
order, where the request at position `i` carries `sectionIndex = i` and
`totalSections = ts.length`.  The requests are inherently sequential in the
model: `expandLoop` issues request `i + 1` only in the branch where request
`i` has resolved successfully. -/
theorem run_issues_one_request_per_outline_entry
    (ebookId : String) (env : GenEnv) (s : ModalState) (ts : List String)
    (hdesc : jsTrim s.description ≠ "")
    (houtline : env.outlineResult = OutlineOutcome.ok ts)
    (hab : env.abortAt = none)
    (hok : ∀ j, env.contentResult j = ContentOutcome.ok) :
    (handleGenerate ebookId env s).contentCalls.length = ts.length ∧
    (handleGenerate ebookId env s).contentCalls.map (fun c => c.sectionIndex) =
      List.range ts.length ∧
    (handleGenerate ebookId env s).contentCalls.map (fun c => c.totalSections) =
      List.replicate ts.length ts.length ∧
    (handleGenerate ebookId env s).contentCalls.map (fun c => c.sectionTitle) = ts := by
  unfold handleGenerate
  rw [if_neg hdesc, houtline]
  obtain ⟨h1, h2, h3, -, -⟩ := expandLoop_ok_calls env ebookId s.description ts.length hab hok ts 0 _
  refine ⟨?_, ?_, ?_, ?_⟩
  · have := congrArg List.length h3
    simpa using this
  · simpa [List.range_eq_range'] using h1
  · simpa using h2
  · simpa using h3

/-- Closed witness for `run_issues_one_request_per_outline_entry` at a
two-section outline. -/
theorem run_issues_one_request_per_outline_entry_witness :
    (handleGenerate "ebook-1"
        ⟨OutlineOutcome.ok ["Intro", "Basics"], fun _ => ContentOutcome.ok, none⟩
        { initialModalState with description := "Topic" }).contentCalls.length = 2 ∧
    (handleGenerate "ebook-1"
        ⟨OutlineOutcome.ok ["Intro", "Basics"], fun _ => ContentOutcome.ok, none⟩
        { initialModalState with description := "Topic" }).contentCalls.map
      (fun c => c.sectionIndex) = List.range 2 ∧
    (handleGenerate "ebook-1"
        ⟨OutlineOutcome.ok ["Intro", "Basics"], fun _ => ContentOutcome.ok, none⟩
        { initialModalState with description := "Topic" }).contentCalls.map
      (fun c => c.totalSections) = List.replicate 2 2 ∧
    (handleGenerate "ebook-1"
        ⟨OutlineOutcome.ok ["Intro", "Basics"], fun _ => ContentOutcome.ok, none⟩
        { initialModalState with description := "Topic" }).contentCalls.map
      (fun c => c.sectionTitle) = ["Intro", "Basics"] :=
  run_issues_one_request_per_outline_entry "ebook-1" _ _ ["Intro", "Basics"]
    (by decide) rfl rfl (fun _ => rfl)

/-- Invariant of the section loop's committed snapshots: entering iteration
`i` with `i + ts.length = total` and pending progress `30 + (i / total) * 65`,
the snapshot progress values form a non-decreasing chain, never drop below the
entry progress, and reach 100 only in the `complete` state. -/
lemma expandLoop_progress_chain (env : GenEnv) (ebookId descr : String) (total : Nat) :
    ∀ (ts : List String) (i : Nat) (s : ModalState),
      i + ts.length = total →
      s.progress = 30 + (i : ℚ) / (total : ℚ) * 65 →
      List.Chain' (fun a b => a.progress ≤ b.progress)
        (expandLoop env ebookId descr total ts i s).2.1 ∧
      ∀ t ∈ (expandLoop env ebookId descr total ts i s).2.1,
        s.progress ≤ t.progress ∧
          (t.progress = 100 → t.stage = GenerationStage.complete) := by
  intro ts
  induction ts with
  | nil =>
    intro i s hi hp
    have hi0 : i ≤ total := by simp at hi; omega
    have hle : s.progress ≤ 95 := hp ▸ progress_formula_le i total hi0
    refine ⟨by simp [expandLoop], ?_⟩
    intro t ht
    simp only [expandLoop, List.mem_singleton] at ht
    subst ht
    refine ⟨?_, fun _ => rfl⟩
    show s.progress ≤ (100 : ℚ)
    linarith
  | cons t rest ih =>
    intro i s hi hp
    have hi1 : i + rest.length + 1 = total := by simp at hi; omega
    have hitotal : i ≤ total := by omega
    have hlt : s.progress < 100 := by
      have := hp ▸ progress_formula_le i total hitotal
      linarith
    cases hg : guardAborted env i with
    | true =>
      refine ⟨by simp [expandLoop, hg], ?_⟩
      intro u hu
      simp only [expandLoop, hg, if_true, List.mem_singleton] at hu
      subst hu
      refine ⟨le_refl _, ?_⟩
      intro habs
      simp only [cancelCatch] at habs
      linarith
    | false =>
      have hmono : s.progress ≤ 30 + ((i : ℚ) + 1) / (total : ℚ) * 65 :=
        hp ▸ progress_formula_mono i total
      cases hc : env.contentResult i with
      | aborted =>
        refine ⟨by simp [expandLoop, hg, hc, cancelCatch], ?_⟩
        intro u hu
        simp only [expandLoop, hg, Bool.false_eq_true, if_false, hc,
          List.mem_cons, List.not_mem_nil, or_false] at hu
        rcases hu with hu | hu <;> subst hu <;> refine ⟨le_refl _, ?_⟩ <;>
          intro habs <;> simp only [cancelCatch] at habs <;> linarith
      | httpError =>
        refine ⟨by simp [expandLoop, hg, hc, errorCatch], ?_⟩
        intro u hu
        simp only [expandLoop, hg, Bool.false_eq_true, if_false, hc,
          List.mem_cons, List.not_mem_nil, or_false] at hu
        rcases hu with hu | hu <;> subst hu <;> refine ⟨le_refl _, ?_⟩ <;>
          intro habs <;> simp only [errorCatch] at habs <;> linarith
      | ok =>
        obtain ⟨hch, hmem⟩ :=
          ih (i + 1)
            { s with
              currentStep := sectionStepLabel i total t
              progress := 30 + ((i : ℚ) + 1) / (total : ℚ) * 65 }
            (by omega) (by push_cast; ring)
        constructor
        · simp only [expandLoop, hg, Bool.false_eq_true, if_false, hc]
          refine List.chain'_cons'.mpr ⟨?_, hch⟩
          intro y hy
          have hy2 := (hmem y (List.mem_of_mem_head? hy)).1
          simp only at hy2 ⊢
          linarith
        · intro u hu
          simp only [expandLoop, hg, Bool.false_eq_true, if_false, hc,
            List.mem_cons] at hu
          rcases hu with hu | hu
          · subst hu
            refine ⟨le_refl _, ?_⟩
            intro habs
            simp only at habs
            linarith
          · obtain ⟨h1, h2⟩ := hmem u hu
            refine ⟨?_, h2⟩
            simp only at h1
            linarith

/-- **C3** — Within a single invocation of `handleGenerate`, the committed
progress values are monotonically non-decreasing, and a committed state has
progress exactly 100 only when its stage is `complete`.  (State committed by
`handleCancel` itself, a separate user action that resets progress to 0 for
the next run, is outside the run's own trace.) -/
theorem progress_monotone_and_100_only_complete
    (ebookId : String) (env : GenEnv) (s : ModalState) :
    List.Chain' (fun a b => a.progress ≤ b.progress)
      (handleGenerate ebookId env s).states ∧
    ∀ t ∈ (handleGenerate ebookId env s).states,
      t.progress = 100 → t.stage = GenerationStage.complete := by
  unfold handleGenerate
  split
  · simp
  · cases houtline : env.outlineResult with
    | httpError =>
      refine ⟨by simp [errorCatch], ?_⟩
      intro t ht
      simp only [List.mem_cons, List.mem_singleton, List.not_mem_nil, or_false] at ht
      rcases ht with ht | ht <;> subst ht <;> intro habs <;>
        norm_num [errorCatch] at habs
    | aborted =>
      refine ⟨by simp [cancelCatch], ?_⟩
      intro t ht
      simp only [List.mem_cons, List.mem_singleton, List.not_mem_nil, or_false] at ht
      rcases ht with ht | ht <;> subst ht <;> intro habs <;>
        norm_num [cancelCatch] at habs
    | ok ts =>
      obtain ⟨hch, hmem⟩ :=
        expandLoop_progress_chain env ebookId s.description ts.length ts 0
          { s with
            isGenerating := true
            stage := GenerationStage.expanding
            progress := 30
            currentStep := "Outline created! Generating content..."
            outline := ts }
          (by omega) (by norm_num)
      constructor
      · refine List.chain'_cons'.mpr ⟨?_, hch⟩
        intro y hy
        have hy2 := (hmem y (List.mem_of_mem_head? hy)).1
        simp only at hy2 ⊢
        linarith
      · intro t ht
        simp only [List.mem_cons] at ht
        rcases ht with ht | ht
        · subst ht
          exact fun habs => absurd habs (by norm_num)
        · exact (hmem t ht).2

/-- If the cancellation signal is observed at the guard of iteration `k` and
every earlier content fetch succeeds, the loop entered at iteration `i ≤ k`
issues exactly the requests for indices `[i, k)` and ends in the `idle`
state. -/
lemma expandLoop_abort_calls (env : GenEnv) (ebookId descr : String) (total : Nat)
    (k : Nat) (hk : env.abortAt = some k)
    (hok : ∀ j, j < k → env.contentResult j = ContentOutcome.ok) :
    ∀ (ts : List String) (i : Nat) (s : ModalState),
      i ≤ k → k < i + ts.length →
      (expandLoop env ebookId descr total ts i s).1.length = k - i ∧
      (∀ c ∈ (expandLoop env ebookId descr total ts i s).1, c.sectionIndex < k) ∧
      (expandLoop env ebookId descr total ts i s).2.2.stage = GenerationStage.idle := by
  intro ts
  induction ts with
  | nil =>
    intro i s hik hkl
    simp at hkl
    omega
  | cons t rest ih =>
    intro i s hik hkl
    rcases Nat.lt_or_ge i k with hlt | hge
    · have hg : guardAborted env i = false := by
        simp [guardAborted, hk]
        omega
      obtain ⟨h1, h2, h3⟩ :=
        ih (i + 1)
          { s with
            currentStep := sectionStepLabel i total t
            progress := 30 + ((i : ℚ) + 1) / (total : ℚ) * 65 }
          (by omega) (by simp at hkl; omega)
      simp only [expandLoop, hg, Bool.false_eq_true, if_false, hok i hlt]
      refine ⟨?_, ?_, h3⟩
      · simp [h1]
        omega
      · intro c hc
        simp only [List.mem_cons] at hc
        rcases hc with hc | hc
        · subst hc; exact hlt
        · exact h2 c hc
    · have hik' : i = k := by omega
      have hg : guardAborted env i = true := by
        simp [guardAborted, hk]
        omega
      simp only [expandLoop, hg, if_true]
      refine ⟨by simp; omega, by simp, rfl⟩

/-- **C4** — If the cancellation signal is observed at the top-of-loop guard
after `k < N` section fetches have resolved (all successfully), the run has
issued exactly `k` section-content requests — none for an index `≥ k` — and
the final stage is `idle`. -/
theorem cancelled_run_issues_exactly_k_requests
    (ebookId : String) (env : GenEnv) (s : ModalState) (ts : List String) (k : Nat)
    (hdesc : jsTrim s.description ≠ "")
    (houtline : env.outlineResult = OutlineOutcome.ok ts)
    (hab : env.abortAt = some k)
    (hklt : k < ts.length)
    (hok : ∀ j, j < k → env.contentResult j = ContentOutcome.ok) :
    (handleGenerate ebookId env s).contentCalls.length = k ∧
    (∀ c ∈ (handleGenerate ebookId env s).contentCalls, c.sectionIndex < k) ∧
    (handleGenerate ebookId env s).final.stage = GenerationStage.idle := by
  unfold handleGenerate
  rw [if_neg hdesc, houtline]
  obtain ⟨h1, h2, h3⟩ :=
    expandLoop_abort_calls env ebookId s.description ts.length k hab hok ts 0 _
      (by omega) (by omega)
  exact ⟨by simpa using h1, h2, h3⟩

/-- Closed witness for `cancelled_run_issues_exactly_k_requests`: cancelling
a three-section run at the guard of iteration 1 leaves exactly one issued
request. -/
theorem cancelled_run_issues_exactly_k_requests_witness :
    (handleGenerate "ebook-1"
        ⟨OutlineOutcome.ok ["A", "B", "C"], fun _ => ContentOutcome.ok, some 1⟩
        { initialModalState with description := "Topic" }).contentCalls.length = 1 ∧
    (∀ c ∈ (handleGenerate "ebook-1"
        ⟨OutlineOutcome.ok ["A", "B", "C"], fun _ => ContentOutcome.ok, some 1⟩
        { initialModalState with description := "Topic" }).contentCalls,
      c.sectionIndex < 1) ∧
    (handleGenerate "ebook-1"
        ⟨OutlineOutcome.ok ["A", "B", "C"], fun _ => ContentOutcome.ok, some 1⟩
        { initialModalState with description := "Topic" }).final.stage =
      GenerationStage.idle :=
  cancelled_run_issues_exactly_k_requests "ebook-1" _ _ ["A", "B", "C"] 1
    (by decide) rfl rfl (by decide) (fun _ _ => rfl)

/-- If the signal is never aborted, every content fetch below `k` succeeds
and the fetch at `k` fails with a non-2xx response, the loop entered at
iteration `i ≤ k` issues exactly the requests for indices `[i, k]` and ends
in the `idle` state. -/
lemma expandLoop_error_calls (env : GenEnv) (ebookId descr : String) (total : Nat)
    (k : Nat) (hab : env.abortAt = none)
    (hfail : env.contentResult k = ContentOutcome.httpError)
    (hok : ∀ j, j < k → env.contentResult j = ContentOutcome.ok) :
    ∀ (ts : List String) (i : Nat) (s : ModalState),
      i ≤ k → k < i + ts.length →
      (expandLoop env ebookId descr total ts i s).1.length = k - i + 1 ∧
      (∀ c ∈ (expandLoop env ebookId descr total ts i s).1, c.sectionIndex ≤ k) ∧
      (expandLoop env ebookId descr total ts i s).2.2.stage = GenerationStage.idle := by
  intro ts
  induction ts with
  | nil =>
    intro i s hik hkl
    simp at hkl
    omega
  | cons t rest ih =>
    intro i s hik hkl
    have hg : guardAborted env i = false := by simp [guardAborted, hab]
    rcases Nat.lt_or_ge i k with hlt | hge
    · obtain ⟨h1, h2, h3⟩ :=
        ih (i + 1)
          { s with
            currentStep := sectionStepLabel i total t
            progress := 30 + ((i : ℚ) + 1) / (total : ℚ) * 65 }
          (by omega) (by simp at hkl; omega)
      simp only [expandLoop, hg, Bool.false_eq_true, if_false, hok i hlt]
      refine ⟨?_, ?_, h3⟩
      · simp [h1]
        omega
      · intro c hc
        simp only [List.mem_cons] at hc
        rcases hc with hc | hc
        · subst hc; exact Nat.le_of_lt hlt
        · exact h2 c hc
    · have hik' : i = k := by omega
      subst hik'
      simp only [expandLoop, hg, Bool.false_eq_true, if_false, hfail]
      refine ⟨by simp, ?_, rfl⟩
      intro c hc
      simp only [List.mem_cons, List.not_mem_nil, or_false] at hc
      subst hc
      exact le_refl _

/-- **C5** — On a failed outline fetch (non-2xx), zero section-content
requests are issued; on a failed section-content fetch at index `i` (earlier
fetches succeeding, no cancellation), no request is issued for any index
greater than `i`.  In both cases the run halts in the `idle` stage with no
retry. -/
theorem failures_halt_request_issue
    (ebookId : String) (env : GenEnv) (s : ModalState)
    (hdesc : jsTrim s.description ≠ "") :
    (env.outlineResult = OutlineOutcome.httpError →
      (handleGenerate ebookId env s).contentCalls = [] ∧
      (handleGenerate ebookId env s).final.stage = GenerationStage.idle) ∧
    (∀ (ts : List String) (i : Nat),
      env.outlineResult = OutlineOutcome.ok ts →
      env.abortAt = none →
      env.contentResult i = ContentOutcome.httpError →
      (∀ j, j < i → env.contentResult j = ContentOutcome.ok) →
      i < ts.length →
      (handleGenerate ebookId env s).contentCalls.length = i + 1 ∧
      (∀ c ∈ (handleGenerate ebookId env s).contentCalls, c.sectionIndex ≤ i) ∧
      (handleGenerate ebookId env s).final.stage = GenerationStage.idle) := by
  constructor
  · intro houtline
    unfold handleGenerate
    rw [if_neg hdesc, houtline]
    exact ⟨rfl, rfl⟩
  · intro ts i houtline hab hfail hok hlt
    unfold handleGenerate
    rw [if_neg hdesc, houtline]
    obtain ⟨h1, h2, h3⟩ :=
      expandLoop_error_calls env ebookId s.description ts.length i hab hfail hok ts 0 _
        (by omega) (by omega)
    exact ⟨by simpa using h1, h2, h3⟩

/-- Closed witness for `failures_halt_request_issue`: an outline failure
issues no content requests, and a content failure at index 1 of a
three-section outline issues exactly the requests for indices 0 and 1. -/
theorem failures_halt_request_issue_witness :
    ((handleGenerate "ebook-1"
        ⟨OutlineOutcome.httpError, fun _ => ContentOutcome.ok, none⟩
        { initialModalState with description := "Topic" }).contentCalls = [] ∧
      (handleGenerate "ebook-1"
        ⟨OutlineOutcome.httpError, fun _ => ContentOutcome.ok, none⟩
        { initialModalState with description := "Topic" }).final.stage =
        GenerationStage.idle) ∧
    ((handleGenerate "ebook-1"
        ⟨OutlineOutcome.ok ["A", "B", "C"],
          fun j => if j < 1 then ContentOutcome.ok else ContentOutcome.httpError, none⟩
        { initialModalState with description := "Topic" }).contentCalls.length = 2 ∧
      (∀ c ∈ (handleGenerate "ebook-1"
          ⟨OutlineOutcome.ok ["A", "B", "C"],
            fun j => if j < 1 then ContentOutcome.ok else ContentOutcome.httpError, none⟩
          { initialModalState with description := "Topic" }).contentCalls,
        c.sectionIndex ≤ 1) ∧
      (handleGenerate "ebook-1"
          ⟨OutlineOutcome.ok ["A", "B", "C"],
            fun j => if j < 1 then ContentOutcome.ok else ContentOutcome.httpError, none⟩
          { initialModalState with description := "Topic" }).final.stage =
        GenerationStage.idle) :=
  ⟨(failures_halt_request_issue "ebook-1" _ _ (by decide)).1 rfl,
    (failures_halt_request_issue "ebook-1" _ _ (by decide)).2 ["A", "B", "C"] 1 rfl rfl
      (by decide) (by decide) (by decide)⟩

/-- **C6** — If the description is empty or whitespace-only after trimming,
`handleGenerate` returns before issuing any network call and before touching
any state hook: no outline call, no content calls, no committed state change,
final state identical to the initial one (so an idle stage and progress 0
stay that way). -/
theorem blank_description_is_noop
    (ebookId : String) (env : GenEnv) (s : ModalState)
    (hdesc : jsTrim s.description = "") :
    (handleGenerate ebookId env s).outlineCalled = false ∧
    (handleGenerate ebookId env s).contentCalls = [] ∧
    (handleGenerate ebookId env s).states = [] ∧
    (handleGenerate ebookId env s).final = s := by
  unfold handleGenerate
  rw [if_pos hdesc]
  exact ⟨rfl, rfl, rfl, rfl⟩

/-- Closed witness for `blank_description_is_noop` at a whitespace-only
description. -/
theorem blank_description_is_noop_witness :
    (handleGenerate "ebook-1"
        ⟨OutlineOutcome.ok ["A"], fun _ => ContentOutcome.ok, none⟩
        { initialModalState with description := "   " }).outlineCalled = false ∧
    (handleGenerate "ebook-1"
        ⟨OutlineOutcome.ok ["A"], fun _ => ContentOutcome.ok, none⟩
        { initialModalState with description := "   " }).contentCalls = [] ∧
    (handleGenerate "ebook-1"
        ⟨OutlineOutcome.ok ["A"], fun _ => ContentOutcome.ok, none⟩
        { initialModalState with description := "   " }).states = [] ∧
    (handleGenerate "ebook-1"
        ⟨OutlineOutcome.ok ["A"], fun _ => ContentOutcome.ok, none⟩
        { initialModalState with description := "   " }).final =
      { initialModalState with description := "   " } :=
  blank_description_is_noop "ebook-1" _ _ (by decide)

/-- **C2** — Every invocation of the outline route with a non-empty
description and ebook id and a configured API key performs the
`deleteAllPages ebookId` effect first, before any LLM call — for every
outcome of the LLM call, including failure (`llmOutline = none`, answered
with status 500) and an outline that is never used.  The prior pages are
therefore destroyed as soon as a generation run starts. -/
theorem outline_route_deletes_pages_first
    (description ebookId : String) (env : OutlineRouteEnv)
    (hd : description ≠ "") (he : ebookId ≠ "")
    (hk : env.apiKeyConfigured = true) :
    (generateOutlinePOST description ebookId env).effects.head? =
      some (RouteEffect.deletePages ebookId) ∧
    (env.llmOutline = none →
      (generateOutlinePOST description ebookId env).status = 500 ∧
      RouteEffect.deletePages ebookId ∈
        (generateOutlinePOST description ebookId env).effects) := by
  unfold generateOutlinePOST
  rw [if_neg (by simp [hd, he]), hk]
  simp only [Bool.true_eq_false, if_false]
  cases env.deleteSucceeds
  · simp
  · cases env.llmOutline <;> simp

/-- Closed witness for `outline_route_deletes_pages_first`: a failing LLM
call (status 500, no outline produced) still deletes the pages first. -/
theorem outline_route_deletes_pages_first_witness :
    (generateOutlinePOST "A topic" "ebook-1" ⟨true, true, none⟩).effects.head? =
      some (RouteEffect.deletePages "ebook-1") ∧
    (((⟨true, true, none⟩ : OutlineRouteEnv).llmOutline = none) →
      (generateOutlinePOST "A topic" "ebook-1" ⟨true, true, none⟩).status = 500 ∧
      RouteEffect.deletePages "ebook-1" ∈
        (generateOutlinePOST "A topic" "ebook-1" ⟨true, true, none⟩).effects) :=
  outline_route_deletes_pages_first "A topic" "ebook-1" ⟨true, true, none⟩
    (by decide) (by decide) rfl

/-- **C10** — Every page created by a successful `generate-content` call has
`order = sectionIndex`, `title = sectionTitle`, and a template determined by
the index: `"cover-page"` at index 0, `"image-top"` at a positive multiple of
4, `"text-only"` otherwise.  (The spec never states the template rule; this
confirms the claimed code behaviour.) -/
theorem content_route_page_fields
    (req : ContentRequest) (env : ContentRouteEnv) (page : Page)
    (hpage : (generateContentPOST req env).page = some page) :
    page.order = req.sectionIndex ∧
    page.title = req.sectionTitle ∧
    (req.sectionIndex = 0 → page.template = "cover-page") ∧
    (0 < req.sectionIndex → 4 ∣ req.sectionIndex → page.template = "image-top") ∧
    (0 < req.sectionIndex → ¬ 4 ∣ req.sectionIndex → page.template = "text-only") ∧
    (generateContentPOST req env).status = 200 := by
  revert hpage
  unfold generateContentPOST
  split
  · intro hpage; simp at hpage
  · split
    · intro hpage; simp at hpage
    · cases hc : env.llmContent with
      | none => intro hpage; simp at hpage
      | some content =>
        simp only
        split
        · intro hpage; simp at hpage
        · intro hpage
          simp only [Option.some.injEq] at hpage
          subst hpage
          have hdvd : 4 ∣ req.sectionIndex ↔ req.sectionIndex % 4 = 0 :=
            Nat.dvd_iff_mod_eq_zero
          refine ⟨rfl, rfl, ?_, ?_, ?_, rfl⟩
          · intro h0
            simp [h0]
          · intro hpos h4
            have h0 : ¬ req.sectionIndex = 0 := by omega
            simp [h0, hdvd.mp h4]
          · intro hpos h4
            have h0 : ¬ req.sectionIndex = 0 := by omega
            have h4m : ¬ req.sectionIndex % 4 = 0 := fun h => h4 (hdvd.mpr h)
            simp [h0, h4m]

/-- Sample request: section 4 of 6 (a positive multiple of 4). -/
def sampleContentRequest : ContentRequest :=
  { ebookId := "ebook-1", sectionTitle := "Deep Dive", sectionIndex := 4,
    totalSections := 6, description := "Topic" }

/-- Sample content-route environment: a configured key and a succeeding LLM
call and page creation. -/
def sampleContentEnv : ContentRouteEnv :=
  { apiKeyConfigured := true, llmContent := some "<p>Body</p>", createSucceeds := true }

/-- The page the sample call creates. -/
def samplePage : Page :=
  { ebookId := "ebook-1", title := "Deep Dive", content := "<p>Body</p>",
    template := "image-top", order := 4 }

/-- Closed witness for `content_route_page_fields` at `sectionIndex = 4`
(a positive multiple of 4: template `"image-top"`). -/
theorem content_route_page_fields_witness :
    samplePage.order = sampleContentRequest.sectionIndex ∧
    samplePage.title = sampleContentRequest.sectionTitle ∧
    (sampleContentRequest.sectionIndex = 0 → samplePage.template = "cover-page") ∧
    (0 < sampleContentRequest.sectionIndex → 4 ∣ sampleContentRequest.sectionIndex →
      samplePage.template = "image-top") ∧
    (0 < sampleContentRequest.sectionIndex → ¬ 4 ∣ sampleContentRequest.sectionIndex →
      samplePage.template = "text-only") ∧
    (generateContentPOST sampleContentRequest sampleContentEnv).status = 200 :=
  content_route_page_fields sampleContentRequest sampleContentEnv samplePage (by decide)

/-- The spec's example scenario environment: the outline endpoint returns
five titles, every content fetch succeeds, no cancellation. -/
def sourdoughEnv : GenEnv :=
  { outlineResult := OutlineOutcome.ok
      ["Starter", "Flour", "Mixing", "Proofing", "Baking"]
    contentResult := fun _ => ContentOutcome.ok
    abortAt := none }

/-- The spec's example scenario starting state. -/
def sourdoughStart : ModalState :=
  { initialModalState with description := "A guide to sourdough baking" }

/-- **C7** — In the example scenario (outline of 5 titles, all fetches
succeed), the orchestrator issues the outline call once (the model issues at
most one outline fetch by construction) and then five sequential content
calls with `sectionIndex` 0..4 and `totalSections = 5`; the committed
progress values are exactly 10, 30, 43, 56, 69, 82, 100 per the
`30 + (i+1)/N * 65` formula (the loop's last written value
`30 + 5/5 * 65 = 95` is overwritten by 100 inside the same committed
update), and the run ends in stage `complete`. -/
theorem five_section_scenario_trace :
    (handleGenerate "ebook-1" sourdoughEnv sourdoughStart).outlineCalled = true ∧
    (handleGenerate "ebook-1" sourdoughEnv sourdoughStart).contentCalls.map
      (fun c => (c.sectionIndex, c.totalSections)) =
      [(0, 5), (1, 5), (2, 5), (3, 5), (4, 5)] ∧
    (handleGenerate "ebook-1" sourdoughEnv sourdoughStart).states.map
      (fun t => t.progress) = [10, 30, 43, 56, 69, 82, 100] ∧
    (handleGenerate "ebook-1" sourdoughEnv sourdoughStart).final.stage =
      GenerationStage.complete := by
  norm_num [handleGenerate, sourdoughEnv, sourdoughStart, initialModalState, expandLoop,
    guardAborted, sectionStepLabel,
    (by decide : jsTrim "A guide to sourdough baking" ≠ "")]

/-- The cancelled-run scenario: the outline fetch delivers two titles and the
cancellation signal is observed at the guard of iteration 0 (the user
cancelled right after the outline arrived). -/
def cancelledEnv : GenEnv :=
  { outlineResult := OutlineOutcome.ok ["Chapter 1", "Chapter 2"]
    contentResult := fun _ => ContentOutcome.ok
    abortAt := some 0 }

/-- Starting state of the cancelled-run scenario. -/
def cancelledStart : ModalState :=
  { initialModalState with description := "Topic" }

/-- **C8** (counterexample) — After a cancelled run (outline received, then
cancel), the orchestrator state from which generation would be re-invoked —
the run's final state after `handleCancel` — still holds the prior run's two
section titles: neither the cancellation `catch` branch nor `handleCancel`
clears `outline`, so the claimed "empty outline" at the start of the next run
is false. -/
theorem cancel_keeps_outline_counterexample :
    (handleCancel (handleGenerate "ebook-1" cancelledEnv cancelledStart).final).outline =
      ["Chapter 1", "Chapter 2"] ∧
    (handleCancel (handleGenerate "ebook-1" cancelledEnv cancelledStart).final).stage =
      GenerationStage.idle ∧
    ["Chapter 1", "Chapter 2"] ≠ ([] : List String) := by
  refine ⟨by decide, by decide, by decide⟩

/-- **C8** (amended) — Re-invoking generation after a prior run's completion
starts fresh: the completion path closes the dialog through `handleClose`,
which resets progress to 0 and clears the outline (and the description).
After a cancellation via the cancel button, `handleCancel` resets progress
to 0 and the stage to `idle`, but the prior run's outline titles remain in
the orchestrator state until the dialog is closed or a new outline response
overwrites them. -/
theorem reset_behavior_close_vs_cancel (s : ModalState) :
    (handleClose s).progress = 0 ∧
    (handleClose s).outline = [] ∧
    (handleClose s).description = "" ∧
    (handleClose s).stage = GenerationStage.idle ∧
    (handleCancel s).progress = 0 ∧
    (handleCancel s).stage = GenerationStage.idle ∧
    (handleCancel s).outline = s.outline := by
  unfold handleClose handleCancel
  split <;> exact ⟨rfl, rfl, rfl, rfl, rfl, rfl, rfl⟩

/-- The empty-outline scenario: the outline fetch succeeds with `[]`. -/
def emptyOutlineEnv : GenEnv :=
  { outlineResult := OutlineOutcome.ok []
    contentResult := fun _ => ContentOutcome.ok
    abortAt := none }

/-- Starting state of the empty-outline scenario. -/
def emptyOutlineStart : ModalState :=
  { initialModalState with description := "Topic" }

/-- **C9** (counterexample) — A successful outline response carrying an empty
list is not rejected: the run proceeds straight through the (empty) section
loop and ends `complete` with zero section-content calls, contradicting the
claim that an empty outline cannot yield a complete run with zero section
calls. -/
theorem empty_outline_completes_counterexample :
    (handleGenerate "ebook-1" emptyOutlineEnv emptyOutlineStart).final.stage =
      GenerationStage.complete ∧
    (handleGenerate "ebook-1" emptyOutlineEnv emptyOutlineStart).contentCalls = [] := by
  refine ⟨by decide, by decide⟩

/-- **C9** (amended) — The orchestrator proceeds past the outline stage on
any successful outline response, with no non-emptiness guard: a successful
response with an empty outline immediately completes the run (final stage
`complete`, progress 100) having issued zero section-content calls. -/
theorem empty_outline_still_completes
    (ebookId : String) (env : GenEnv) (s : ModalState)
    (hdesc : jsTrim s.description ≠ "")
    (houtline : env.outlineResult = OutlineOutcome.ok []) :
    (handleGenerate ebookId env s).final.stage = GenerationStage.complete ∧
    (handleGenerate ebookId env s).final.progress = 100 ∧
    (handleGenerate ebookId env s).contentCalls = [] := by
  unfold handleGenerate
  rw [if_neg hdesc, houtline]
  exact ⟨rfl, rfl, rfl⟩

/-- Closed witness for `empty_outline_still_completes`. -/
theorem empty_outline_still_completes_witness :
    (handleGenerate "ebook-2" emptyOutlineEnv emptyOutlineStart).final.stage =
      GenerationStage.complete ∧
    (handleGenerate "ebook-2" emptyOutlineEnv emptyOutlineStart).final.progress = 100 ∧
    (handleGenerate "ebook-2" emptyOutlineEnv emptyOutlineStart).contentCalls = [] :=
  empty_outline_still_completes "ebook-2" emptyOutlineEnv emptyOutlineStart
    (by decide) rfl

end EbookPro
